import Mathlib

/-!
Verification development for the cqlite repository (Python sources).

The embedding below translates the Python functions that the specification
talks about into executable Lean definitions:

* `convert_cql_value` and its helpers — `python/cqlite/types.py`
* `validate_query`                    — `python/cqlite/reader.py`
* `decode_vint`, `analyze_magic_number` — `scripts/validation/validate_cassandra_compatibility.py`
* `validate_sstable_path`             — `python/cqlite/utils.py`
* `query_chunks`, `query_streaming`   — `python/cqlite/async_support.py`

Python strings are modelled as `List Char` (named `PyStr`) so that every
operation is a plain structural recursion the kernel can evaluate.
Python builtins and library calls that are not part of the repository
(`str(...)`, `int(...)`, `uuid.UUID(...)`, `datetime` parsing, hashing of
set/dict construction, ...) are abstracted as fields of a `PyEnv`
environment; theorems quantify over every environment, so they hold for
any behaviour of those builtins.
-/

/-- Python strings, modelled as lists of characters. -/
abbrev PyStr := List Char

/-- ASCII lower-casing of one character (`str.lower` on the ASCII range used by the code). -/
def pyToLowerChar (c : Char) : Char :=
  if 'A' ≤ c ∧ c ≤ 'Z' then Char.ofNat (c.toNat + 32) else c

/-- ASCII upper-casing of one character (`str.upper` on the ASCII range used by the code). -/
def pyToUpperChar (c : Char) : Char :=
  if 'a' ≤ c ∧ c ≤ 'z' then Char.ofNat (c.toNat - 32) else c

/-- Python `str.lower()`. -/
def pyToLower (s : PyStr) : PyStr := s.map pyToLowerChar

/-- Python `str.upper()`. -/
def pyToUpper (s : PyStr) : PyStr := s.map pyToUpperChar

/-- Whitespace characters removed by Python `str.strip()`. -/
def pyIsSpace (c : Char) : Bool :=
  c == ' ' || c == '\t' || c == '\n' || c == '\r' || c == Char.ofNat 11 || c == Char.ofNat 12

/-- Python `str.strip()`: drop whitespace from both ends. -/
def pyStrip (s : PyStr) : PyStr :=
  ((s.dropWhile pyIsSpace).reverse.dropWhile pyIsSpace).reverse

/-- Python `str.split(sep)` for a single-character separator. -/
def pySplit (sep : Char) : PyStr → List PyStr
  | [] => [[]]
  | c :: rest =>
    match pySplit sep rest with
    | [] => if c == sep then [[], [c]] else [[c]]
    | p :: ps => if c == sep then [] :: p :: ps else (c :: p) :: ps

/-- Python `pat in s` on strings: substring containment. -/
def containsSub (s pat : PyStr) : Bool :=
  match s with
  | [] => pat.isEmpty
  | _ :: rest => pat.isPrefixOf s || containsSub rest pat

/-- Python `s.startswith(pat)`. -/
def pyStartsWith (s pat : PyStr) : Bool := pat.isPrefixOf s

/-- Python `s.endswith(pat)` on `String`s, via the underlying character lists. -/
def strEndsWith (s pat : String) : Bool := pat.toList.isSuffixOf s.toList

/-- Model of the Python values the `types.py` conversion code manipulates.
`float` and `obj` carry an uninterpreted payload: the code never inspects
their contents, it only passes them to builtins (which live in `PyEnv`).
`obj` stands for instances of classes such as `uuid.UUID`, `datetime.*`,
`decimal.Decimal` or the `ipaddress` types. -/
inductive PyValue where
  | none
  | bool (b : Bool)
  | int (n : Int)
  | float (payload : PyStr)
  | str (s : PyStr)
  | bytes (bs : List Nat)
  | list (xs : List PyValue)
  | tuple (xs : List PyValue)
  | set (xs : List PyValue)
  | dict (kvs : List (PyValue × PyValue))
  | obj (cls : PyStr) (payload : PyStr)

/-- Python `value is None`. -/
def PyValue.isNone : PyValue → Bool
  | PyValue.none => true
  | _ => false

/-- Environment of Python builtins and stdlib calls used by
`convert_cql_value` but external to the repository.  Fallible calls return
`Except` (a raised exception propagates).  `mkSet`/`mkDict` model the
construction of a `set`/`dict` from the sequence produced by a
comprehension (hashing, deduplication, ordering). -/
structure PyEnv where
  pyStr : PyValue → PyStr
  pyInt : PyValue → Except String Int
  pyFloat : PyValue → Except String PyValue
  pyDecimal : PyStr → Except String PyValue
  pyTruth : PyValue → Bool
  bytesFromHex : PyStr → Except String (List Nat)
  pyBytes : PyValue → Except String (List Nat)
  uuidFromStr : PyStr → Except String PyValue
  timestampFromStr : PyStr → Except String PyValue
  timestampFromNum : PyValue → Except String PyValue
  dateFromStr : PyStr → Except String PyValue
  timeFromStr : PyStr → Except String PyValue
  inetFromStr : PyStr → Except String PyValue
  pyList : PyValue → Except String (List PyValue)
  pySet : PyValue → Except String (List PyValue)
  pyDict : PyValue → Except String (List (PyValue × PyValue))
  pyTuple : PyValue → Except String (List PyValue)
  mkSet : List PyValue → List PyValue
  mkDict : List (PyValue × PyValue) → List (PyValue × PyValue)

/-- The `CQLType` enum of `types.py`. -/
inductive CQLType where
  | text | varchar | ascii
  | int | smallint | tinyint | bigint | varint
  | float | double | decimal | boolean | blob
  | uuid | timeuuid
  | timestamp | date | time | duration
  | inet
  | list | set | map | tuple
  | udt
  | counter
deriving DecidableEq

/-- Python `CQLType(base_type)`: look a string up among the enum values;
`Option.none` models the `ValueError` branch. -/
def CQLType.ofPyStr (s : PyStr) : Option CQLType :=
  if s == "text".toList then some CQLType.text
  else if s == "varchar".toList then some CQLType.varchar
  else if s == "ascii".toList then some CQLType.ascii
  else if s == "int".toList then some CQLType.int
  else if s == "smallint".toList then some CQLType.smallint
  else if s == "tinyint".toList then some CQLType.tinyint
  else if s == "bigint".toList then some CQLType.bigint
  else if s == "varint".toList then some CQLType.varint
  else if s == "float".toList then some CQLType.float
  else if s == "double".toList then some CQLType.double
  else if s == "decimal".toList then some CQLType.decimal
  else if s == "boolean".toList then some CQLType.boolean
  else if s == "blob".toList then some CQLType.blob
  else if s == "uuid".toList then some CQLType.uuid
  else if s == "timeuuid".toList then some CQLType.timeuuid
  else if s == "timestamp".toList then some CQLType.timestamp
  else if s == "date".toList then some CQLType.date
  else if s == "time".toList then some CQLType.time
  else if s == "duration".toList then some CQLType.duration
  else if s == "inet".toList then some CQLType.inet
  else if s == "list".toList then some CQLType.list
  else if s == "set".toList then some CQLType.set
  else if s == "map".toList then some CQLType.map
  else if s == "tuple".toList then some CQLType.tuple
  else if s == "udt".toList then some CQLType.udt
  else if s == "counter".toList then some CQLType.counter
  else Option.none

/-- The expression `cql_type_string.split('<')[0].lower().strip()` shared by
`convert_cql_value` and friends. -/
def base_type (t : PyStr) : PyStr :=
  pyStrip (pyToLower ((pySplit '<' t).headD []))

/-- Helper of `_split_type_params`: one step of the character loop, on the
state `(parts, current, depth)`. -/
def splitParamsStep (st : List PyStr × PyStr × Int) (c : Char) : List PyStr × PyStr × Int :=
  let (parts, current, depth) := st
  if c == '<' then (parts, current ++ [c], depth + 1)
  else if c == '>' then (parts, current ++ [c], depth - 1)
  else if c == ',' && depth == 0 then (parts ++ [pyStrip current], [], depth)
  else (parts, current ++ [c], depth)

/-- Python `_split_type_params`: split type parameters on top-level commas,
tracking angle-bracket depth. -/
def _split_type_params (s : PyStr) : List PyStr :=
  let st := s.foldl splitParamsStep ([], [], 0)
  let (parts, current, _) := st
  if (pyStrip current).isEmpty then parts else parts ++ [pyStrip current]

/-- Python `s[start:end]` (both indices clamped, empty if `stop ≤ start`). -/
def pySlice (s : PyStr) (start stop : Nat) : PyStr := (s.drop start).take (stop - start)

/-- Python `s.find(c)` under the guarantee that `c` occurs in `s`. -/
def pyFindChar (s : PyStr) (c : Char) : Nat := s.findIdx (fun x => x == c)

/-- Python `s.rfind(c)` under the guarantee that `c` occurs in `s`. -/
def pyRFindChar (s : PyStr) (c : Char) : Nat := s.length - 1 - s.reverse.findIdx (fun x => x == c)

/-- Python `_extract_element_type`: inner type of `list<T>` / `set<T>`. -/
def _extract_element_type (t : PyStr) : PyStr :=
  if t.contains '<' && t.contains '>' then
    let start := pyFindChar t '<' + 1
    let stop := pyRFindChar t '>'
    pyStrip (pySlice t start stop)
  else "text".toList

/-- Python `_extract_map_types`: key and value types of `map<K,V>`. -/
def _extract_map_types (t : PyStr) : PyStr × PyStr :=
  if t.contains '<' && t.contains '>' then
    let start := pyFindChar t '<' + 1
    let stop := pyRFindChar t '>'
    let inner := pyStrip (pySlice t start stop)
    let parts := _split_type_params inner
    if 2 ≤ parts.length then (pyStrip (parts.headD []), pyStrip ((parts.drop 1).headD []))
    else ("text".toList, "text".toList)
  else ("text".toList, "text".toList)

/-- Python `_extract_tuple_types`: element types of `tuple<T1,T2,...>`. -/
def _extract_tuple_types (t : PyStr) : List PyStr :=
  if t.contains '<' && t.contains '>' then
    let start := pyFindChar t '<' + 1
    let stop := pyRFindChar t '>'
    let inner := pyStrip (pySlice t start stop)
    (_split_type_params inner).map pyStrip
  else ["text".toList]

mutual

/-- Translation of `convert_cql_value` from `python/cqlite/types.py`
(lines 158-288).  The `value is None` short-circuit and the
unknown-base-type pass-through come first, exactly as in the source;
`convertTyped` holds the per-`CQLType` dispatch chain. -/
def convert_cql_value (env : PyEnv) (value : PyValue) (t : PyStr) : Except String PyValue :=
  if PyValue.isNone value then Except.ok PyValue.none
  else
    match CQLType.ofPyStr (base_type t) with
    | Option.none => Except.ok value
    | some ct => convertTyped env value t ct

/-- The `elif` dispatch chain of `convert_cql_value` (one arm per `CQLType`
group, in source order).  In the `timestamp` arm `PyValue.bool` takes the
`isinstance(value, (int, float))` branch because Python `bool` is a
subclass of `int`. -/
def convertTyped (env : PyEnv) (value : PyValue) (t : PyStr) (ct : CQLType) : Except String PyValue :=
  match ct with
  | CQLType.text | CQLType.varchar | CQLType.ascii =>
    Except.ok (PyValue.str (env.pyStr value))
  | CQLType.int | CQLType.smallint | CQLType.tinyint | CQLType.bigint | CQLType.counter =>
    (env.pyInt value).map PyValue.int
  | CQLType.varint =>
    (env.pyInt value).map PyValue.int
  | CQLType.float => env.pyFloat value
  | CQLType.double => env.pyFloat value
  | CQLType.decimal =>
    match value with
    | PyValue.str s => env.pyDecimal s
    | v => env.pyDecimal (env.pyStr v)
  | CQLType.boolean =>
    match value with
    | PyValue.str s =>
      let l := pyToLower s
      Except.ok (PyValue.bool
        (l == "true".toList || l == "1".toList || l == "yes".toList || l == "on".toList))
    | v => Except.ok (PyValue.bool (env.pyTruth v))
  | CQLType.blob =>
    match value with
    | PyValue.str s => (env.bytesFromHex s).map PyValue.bytes
    | v => (env.pyBytes v).map PyValue.bytes
  | CQLType.uuid | CQLType.timeuuid =>
    match value with
    | PyValue.str s => env.uuidFromStr s
    | v => Except.ok v
  | CQLType.timestamp =>
    match value with
    | PyValue.str s => env.timestampFromStr s
    | PyValue.int n => env.timestampFromNum (PyValue.int n)
    | PyValue.float p => env.timestampFromNum (PyValue.float p)
    | PyValue.bool b => env.timestampFromNum (PyValue.bool b)
    | v => Except.ok v
  | CQLType.date =>
    match value with
    | PyValue.str s => env.dateFromStr s
    | v => Except.ok v
  | CQLType.time =>
    match value with
    | PyValue.str s => env.timeFromStr s
    | v => Except.ok v
  | CQLType.duration => Except.ok value
  | CQLType.inet =>
    match value with
    | PyValue.str s => env.inetFromStr s
    | v => Except.ok v
  | CQLType.list =>
    match value with
    | PyValue.list xs => (convertElems env xs (_extract_element_type t)).map PyValue.list
    | PyValue.tuple xs => (convertElems env xs (_extract_element_type t)).map PyValue.list
    | v => (env.pyList v).map PyValue.list
  | CQLType.set =>
    match value with
    | PyValue.list xs =>
      (convertElems env xs (_extract_element_type t)).map (fun ys => PyValue.set (env.mkSet ys))
    | PyValue.tuple xs =>
      (convertElems env xs (_extract_element_type t)).map (fun ys => PyValue.set (env.mkSet ys))
    | PyValue.set xs =>
      (convertElems env xs (_extract_element_type t)).map (fun ys => PyValue.set (env.mkSet ys))
    | v => (env.pySet v).map PyValue.set
  | CQLType.map =>
    match value with
    | PyValue.dict kvs =>
      let kv := _extract_map_types t
      (convertPairs env kvs kv.1 kv.2).map (fun ps => PyValue.dict (env.mkDict ps))
    | v => (env.pyDict v).map PyValue.dict
  | CQLType.tuple =>
    match value with
    | PyValue.list xs => (convertTupleElems env xs (_extract_tuple_types t)).map PyValue.tuple
    | PyValue.tuple xs => (convertTupleElems env xs (_extract_tuple_types t)).map PyValue.tuple
    | v => (env.pyTuple v).map PyValue.tuple
  | CQLType.udt =>
    match value with
    | PyValue.dict kvs => Except.ok (PyValue.dict kvs)
    | v => (env.pyDict v).map PyValue.dict

/-- The list comprehension `[convert_cql_value(item, element_type) for item in value]`. -/
def convertElems (env : PyEnv) (xs : List PyValue) (t : PyStr) : Except String (List PyValue) :=
  match xs with
  | [] => Except.ok []
  | x :: rest => do
    let y ← convert_cql_value env x t
    let ys ← convertElems env rest t
    Except.ok (y :: ys)

/-- The dict comprehension converting keys and values of a `map`. -/
def convertPairs (env : PyEnv) (kvs : List (PyValue × PyValue)) (kt vt : PyStr) :
    Except String (List (PyValue × PyValue)) :=
  match kvs with
  | [] => Except.ok []
  | (k, v) :: rest => do
    let k2 ← convert_cql_value env k kt
    let v2 ← convert_cql_value env v vt
    let ys ← convertPairs env rest kt vt
    Except.ok ((k2, v2) :: ys)

/-- The `tuple` loop: element `i` is converted at `element_types[i]`,
defaulting to `"text"` beyond the end of the list. -/
def convertTupleElems (env : PyEnv) (xs : List PyValue) (ts : List PyStr) :
    Except String (List PyValue) :=
  match xs with
  | [] => Except.ok []
  | x :: rest => do
    let y ← convert_cql_value env x (ts.headD "text".toList)
    let ys ← convertTupleElems env rest ts.tail
    Except.ok (y :: ys)

end

/-- Concrete environment instance used for witnesses; the theorems hold for
every environment, this one just makes statements closed. -/
def defaultPyEnv : PyEnv :=
  { pyStr := fun _ => []
    pyInt := fun _ => Except.error "unmodelled"
    pyFloat := fun _ => Except.error "unmodelled"
    pyDecimal := fun _ => Except.error "unmodelled"
    pyTruth := fun _ => true
    bytesFromHex := fun _ => Except.error "unmodelled"
    pyBytes := fun _ => Except.error "unmodelled"
    uuidFromStr := fun _ => Except.error "unmodelled"
    timestampFromStr := fun _ => Except.error "unmodelled"
    timestampFromNum := fun _ => Except.error "unmodelled"
    dateFromStr := fun _ => Except.error "unmodelled"
    timeFromStr := fun _ => Except.error "unmodelled"
    inetFromStr := fun _ => Except.error "unmodelled"
    pyList := fun _ => Except.error "unmodelled"
    pySet := fun _ => Except.error "unmodelled"
    pyDict := fun _ => Except.error "unmodelled"
    pyTuple := fun _ => Except.error "unmodelled"
    mkSet := fun ys => ys
    mkDict := fun ps => ps }

/-- Result dictionary of `SSTableReader.validate_query` in `reader.py`. -/
structure QueryValidation where
  valid : Bool
  errors : List String
  warnings : List String

/-- Translation of `SSTableReader.validate_query` (`reader.py` lines
324-359): uppercase the stripped SQL, flag non-`SELECT` statements and the
presence of the `DELETE`/`INSERT`/`UPDATE` substrings.  The surrounding
`try`/`except` cannot fire in this pure model, so it is not represented. -/
def validate_query (sql : PyStr) : QueryValidation :=
  let sql_upper := pyToUpper (pyStrip sql)
  let errors1 : List String :=
    if !(pyStartsWith sql_upper "SELECT".toList) then ["Only SELECT statements are supported"]
    else []
  let errors2 : List String :=
    if containsSub sql_upper "DELETE".toList || containsSub sql_upper "INSERT".toList
        || containsSub sql_upper "UPDATE".toList then
      errors1 ++ ["Only read-only SELECT operations are allowed"]
    else errors1
  { valid := errors2.length == 0, errors := errors2, warnings := [] }

/-- The `while test_byte & 0x80 and extra_bytes < 8` loop of `decode_vint`,
written with the loop bound `8 - extra_bytes` as the recursion measure:
`remaining` starts at `8` and `extra_bytes` at `0`. -/
def vintCountLoop (test_byte extra_bytes : Nat) : Nat → Nat
  | 0 => extra_bytes
  | remaining + 1 =>
    if test_byte &&& 0x80 ≠ 0 then vintCountLoop (test_byte <<< 1) (extra_bytes + 1) remaining
    else extra_bytes

/-- Leading 1-bit count of the first byte as computed by `decode_vint`
(capped at 8). -/
def vintExtraBytes (first_byte : Nat) : Nat := vintCountLoop first_byte 0 8

/-- Translation of `decode_vint` from
`scripts/validation/validate_cassandra_compatibility.py` (lines 95-131).
Bytes are naturals below 256; a raised `ValueError` becomes `Except.error`
(the message text of the source is an f-string and is abbreviated here). -/
def decode_vint (vint_bytes : List Nat) : Except String Int :=
  match vint_bytes with
  | [] => Except.error "Empty VInt bytes"
  | first_byte :: rest =>
    let extra_bytes := vintExtraBytes first_byte
    let total_length := extra_bytes + 1
    if (first_byte :: rest).length ≠ total_length then Except.error "VInt length mismatch"
    else
      let value : Nat :=
        if extra_bytes = 0 then first_byte &&& 0x7F
        else
          let first_byte_value_bits := if extra_bytes < 7 then 7 - extra_bytes else 0
          let v0 := if 0 < first_byte_value_bits
            then first_byte &&& ((1 <<< first_byte_value_bits) - 1) else 0
          rest.foldl (fun v b => (v <<< 8) ||| b) v0
      Except.ok (Int.xor ((value >>> 1 : Nat) : Int) (if value &&& 1 ≠ 0 then -1 else 0))

/-- Specification-side count of the leading 1-bits of a byte (most
significant bit first), used to compare `decode_vint` against the spec. -/
def specLeadingOnes (b : Nat) : Nat :=
  ((List.range 8).takeWhile (fun i => b.testBit (7 - i))).length

/-- Specification-side big-endian value of a byte string. -/
def specBigEndian (bs : List Nat) : Nat := bs.foldl (fun acc b => acc * 256 + b) 0

/-- Specification-side unsigned magnitude of a VInt: the low
`7 - extra_bytes` bits of the first byte (none when `extra_bytes ≥ 7`)
concatenated with the remaining bytes in big-endian order. -/
def specVIntMagnitude (first : Nat) (rest : List Nat) : Nat :=
  let extra := specLeadingOnes first
  let firstBits := if extra < 7 then first % 2 ^ (7 - extra) else 0
  firstBits * 256 ^ rest.length + specBigEndian rest

/-- Specification-side ZigZag decoding `(magnitude >> 1) XOR (-(magnitude & 1))`. -/
def specZigZag (m : Nat) : Int :=
  Int.xor ((m >>> 1 : Nat) : Int) (-((m &&& 1 : Nat) : Int))

/-- Result dictionary of `analyze_magic_number` (the non-error shape). -/
structure MagicAnalysis where
  magic_hex : PyStr
  format_recognized : Bool
  format_name : String
  version_bytes : PyStr

/-- An ASCII single quote, written by code point to keep source strings
free of quote characters. -/
def sglQuote : String := String.mk [Char.ofNat 39]

/-- Format names from the `known_formats` table of `analyze_magic_number`. -/
def oaFormatName : String := "Cassandra " ++ sglQuote ++ "oa" ++ sglQuote ++ " format"

/-- Format name of the `nb` generation. -/
def nbFormatName : String := "Cassandra " ++ sglQuote ++ "nb" ++ sglQuote ++ " format"

/-- Format name of the `mc` generation. -/
def mcFormatName : String := "Cassandra " ++ sglQuote ++ "mc" ++ sglQuote ++ " format"

/-- Format name of the `ld` generation. -/
def ldFormatName : String := "Cassandra " ++ sglQuote ++ "ld" ++ sglQuote ++ " format"

/-- The `known_formats` table of `analyze_magic_number`. -/
def known_formats : List (Nat × String) :=
  [(0x6F610000, oaFormatName), (0x6E620000, nbFormatName),
   (0x6D630000, mcFormatName), (0x6C640000, ldFormatName)]

/-- Upper-case hexadecimal digit. -/
def hexDigitUpper (n : Nat) : Char :=
  if n < 10 then Char.ofNat (48 + n) else Char.ofNat (55 + n)

/-- Python `f"{n:0wX}"` for `n < 16^w`: fixed-width upper-case hex. -/
def hexPad (width n : Nat) : PyStr :=
  (List.range width).reverse.map (fun i => hexDigitUpper ((n >>> (4 * i)) % 16))

/-- Translation of `analyze_magic_number` from
`scripts/validation/validate_cassandra_compatibility.py` (lines 19-42):
read the first four bytes as a big-endian 32-bit magic, mask the high 16
bits and look the result up in `known_formats`.  The short-input error
dictionary becomes `Except.error`. -/
def analyze_magic_number (data : List Nat) : Except String MagicAnalysis :=
  match data with
  | b0 :: b1 :: b2 :: b3 :: _ =>
    let magic := ((b0 * 256 + b1) * 256 + b2) * 256 + b3
    let format_check := magic &&& 0xFFFF0000
    let looked := known_formats.lookup format_check
    Except.ok
      { magic_hex := "0x".toList ++ hexPad 8 magic
        format_recognized := looked.isSome
        format_name := looked.getD "Unknown format"
        version_bytes := "0x".toList ++ hexPad 4 (magic &&& 0xFFFF) }
  | _ => Except.error "File too short for magic number"

/-- A `pathlib.Path` as used by `validate_sstable_path`: a parent
directory plus a final name component. -/
structure PyPath where
  dir : String
  name : String
deriving DecidableEq

/-- Snapshot of the filesystem facts `validate_sstable_path` queries.
`stat` is modelled as total on existing files, so the `OSError` warning
branch of the source cannot fire in this model. -/
structure FileSystem where
  pathExists : PyPath → Bool
  isFile : PyPath → Bool
  fileSize : PyPath → Nat

/-- Result dictionary of `validate_sstable_path`; the early-return shape
carries no size or companion information, hence the `Option` fields. -/
structure SSTableValidation where
  valid : Bool
  errors : List String
  warnings : List String
  file_size_bytes : Option Nat
  missing_companions : Option (List String)

/-- The `companion_files` table of `validate_sstable_path`, in source
order, built from `base_name = path.name[:-8]`. -/
def companion_files (base_name : String) : List (String × String) :=
  [("Index.db", base_name ++ "-Index.db"),
   ("Statistics.db", base_name ++ "-Statistics.db"),
   ("CompressionInfo.db", base_name ++ "-CompressionInfo.db"),
   ("Filter.db", base_name ++ "-Filter.db"),
   ("Summary.db", base_name ++ "-Summary.db")]

/-- Translation of `validate_sstable_path` from `python/cqlite/utils.py`
(lines 366-431).  Error-message f-strings are abbreviated to fixed texts. -/
def validate_sstable_path (fs : FileSystem) (path : PyPath) : SSTableValidation :=
  if !(fs.pathExists path) then
    { valid := false, errors := ["File does not exist"], warnings := []
      file_size_bytes := Option.none, missing_companions := Option.none }
  else
    let errors1 : List String := if !(fs.isFile path) then ["Path is not a file"] else []
    let errors2 : List String :=
      errors1 ++ (if !(strEndsWith path.name "-Data.db")
        then ["File does not have SSTable Data.db extension"] else [])
    let size := fs.fileSize path
    let warnings1 : List String :=
      if size = 0 then ["SSTable file is empty"]
      else if size < 1024 then ["SSTable file is very small"]
      else []
    let base_name := String.mk (path.name.toList.take (path.name.toList.length - 8))
    let missing :=
      ((companion_files base_name).filter
        (fun fp => !(fs.pathExists { dir := path.dir, name := fp.2 }))).map (fun fp => fp.1)
    let warnings2 := warnings1 ++ (if missing.isEmpty then [] else ["Missing companion files"])
    { valid := errors2.length == 0
      errors := errors2
      warnings := warnings2
      file_size_bytes := some (if fs.pathExists path then fs.fileSize path else 0)
      missing_companions := some missing }

/-- Translation of `AsyncSSTableReader.query_streaming`
(`async_support.py` lines 62-81): each row produced by the underlying
`AsyncQueryIterator` is yielded unchanged, so on a given row sequence the
method is the identity. -/
def query_streaming {α : Type} (rows : List α) : List α := rows

/-- The accumulation loop of `AsyncSSTableReader.query_chunks`
(`async_support.py` lines 98-110): grow `chunk`, yield it when it reaches
`chunk_size`, and yield the final partial chunk if non-empty. -/
def queryChunksLoop {α : Type} (chunk_size : Nat) (chunk : List α) : List α → List (List α)
  | [] => if chunk.isEmpty then [] else [chunk]
  | row :: rest =>
    let chunk2 := chunk ++ [row]
    if chunk_size ≤ chunk2.length then chunk2 :: queryChunksLoop chunk_size [] rest
    else queryChunksLoop chunk_size chunk2 rest

/-- Translation of `AsyncSSTableReader.query_chunks` on the row sequence
produced by the underlying iterator (the `chunk_size or self.chunk_size`
defaulting happens before this loop and is resolved by the caller here). -/
def query_chunks {α : Type} (chunk_size : Nat) (rows : List α) : List (List α) :=
  queryChunksLoop chunk_size [] rows

/-! ## Theorems -/

/-- Shared helper: the `value is None` short-circuit of `convert_cql_value`
returns `None` for every type string and every builtin environment. -/
theorem convert_cql_value_none (env : PyEnv) (t : PyStr) :
    convert_cql_value env PyValue.none t = Except.ok PyValue.none := by
  simp [convert_cql_value, PyValue.isNone]

/-- C2: for every CQL type string `T` and every behaviour of the Python
builtins, `convert_cql_value(None, T)` returns `None`, short-circuiting
before any type-specific conversion logic runs. -/
theorem c2_null_propagation (env : PyEnv) (t : PyStr) :
    convert_cql_value env PyValue.none t = Except.ok PyValue.none :=
  convert_cql_value_none env t

/-- C1 counterexample: `convert_cql_value(None, "list<text>")` does not
return the empty list — the claimed collection normalization does not hold
on the code. -/
theorem c1_counterexample :
    convert_cql_value defaultPyEnv PyValue.none "list<text>".toList ≠
      Except.ok (PyValue.list []) := by
  intro h
  rw [convert_cql_value_none] at h
  simp at h

/-- C1 (amended): converting a null input at a collection type yields
`None`, not an empty collection — the `value is None` short-circuit on
line 175 of `types.py` fires before the collection branches, whose
empty-collection fallbacks (`... if value is not None else []`) are
unreachable for null input. -/
theorem c1_null_collection (env : PyEnv) :
    convert_cql_value env PyValue.none "list<text>".toList = Except.ok PyValue.none ∧
    convert_cql_value env PyValue.none "set<text>".toList = Except.ok PyValue.none ∧
    convert_cql_value env PyValue.none "map<text,int>".toList = Except.ok PyValue.none :=
  ⟨convert_cql_value_none env _, convert_cql_value_none env _, convert_cql_value_none env _⟩

/-- C9: a non-null value at a type string whose base name is not a
recognized `CQLType` value passes through unchanged, without raising. -/
theorem c9_unknown_type_pass_through (env : PyEnv) (v : PyValue) (t : PyStr)
    (h1 : PyValue.isNone v = false) (h2 : CQLType.ofPyStr (base_type t) = Option.none) :
    convert_cql_value env v t = Except.ok v := by
  rw [convert_cql_value, h1, h2]
  simp

/-- C9 witness: `convert_cql_value(5, "frozen<list<text>>")` returns `5`. -/
theorem c9_witness :
    PyValue.isNone (PyValue.int 5) = false ∧
    CQLType.ofPyStr (base_type "frozen<list<text>>".toList) = Option.none ∧
    convert_cql_value defaultPyEnv (PyValue.int 5) "frozen<list<text>>".toList =
      Except.ok (PyValue.int 5) :=
  ⟨rfl, by decide,
    c9_unknown_type_pass_through defaultPyEnv (PyValue.int 5) "frozen<list<text>>".toList
      rfl (by decide)⟩

/-- Shared helper: a statement whose stripped upper-casing does not start
with `SELECT` is reported invalid by `validate_query`. -/
theorem validate_query_invalid_of_not_select (sql : PyStr)
    (h : pyStartsWith (pyToUpper (pyStrip sql)) "SELECT".toList = false) :
    (validate_query sql).valid = false := by
  simp only [validate_query, h, Bool.not_false, if_true]
  split <;> simp

/-- Shared helper: a statement whose stripped upper-casing contains any of
the `DELETE`/`INSERT`/`UPDATE` substrings is reported invalid by
`validate_query`. -/
theorem validate_query_invalid_of_kw (sql : PyStr)
    (h : (containsSub (pyToUpper (pyStrip sql)) "DELETE".toList ||
          containsSub (pyToUpper (pyStrip sql)) "INSERT".toList ||
          containsSub (pyToUpper (pyStrip sql)) "UPDATE".toList) = true) :
    (validate_query sql).valid = false := by
  simp only [validate_query, h, if_true]
  simp

/-- C3 counterexample: a statement containing both `CREATE` and `DROP`
keywords is reported valid by `validate_query` — the code screens only
`DELETE`/`INSERT`/`UPDATE`, so the claimed rejection of `CREATE`/`DROP`
does not hold. -/
theorem c3_counterexample : (validate_query "SELECT CREATE DROP".toList).valid = true := by
  decide

/-- C3 (amended): `validate_query` reports a statement invalid (via
`valid = false` in its result dictionary) when it is empty or
whitespace-only, or does not begin with `SELECT` case-insensitively, or
contains any of the substrings `INSERT`, `UPDATE`, `DELETE`; `CREATE` and
`DROP` are not screened.  In particular `"INSERT INTO t VALUES (1)"` is
reported invalid. -/
theorem c3_read_only_enforcement :
    (∀ sql : PyStr,
      (pyStrip sql = [] ∨
       pyStartsWith (pyToUpper (pyStrip sql)) "SELECT".toList = false ∨
       containsSub (pyToUpper (pyStrip sql)) "INSERT".toList = true ∨
       containsSub (pyToUpper (pyStrip sql)) "UPDATE".toList = true ∨
       containsSub (pyToUpper (pyStrip sql)) "DELETE".toList = true) →
      (validate_query sql).valid = false) ∧
    (validate_query "INSERT INTO t VALUES (1)".toList).valid = false := by
  constructor
  · intro sql h
    rcases h with h | h | h | h | h
    · exact validate_query_invalid_of_not_select sql (by rw [h]; decide)
    · exact validate_query_invalid_of_not_select sql h
    · exact validate_query_invalid_of_kw sql (by rw [h]; simp)
    · exact validate_query_invalid_of_kw sql (by rw [h]; simp)
    · exact validate_query_invalid_of_kw sql (by rw [h]; simp)
  · decide

/-- C3 witness: `"DROP TABLE t"` does not begin with `SELECT`, and
`validate_query` reports it invalid. -/
theorem c3_witness : (validate_query "DROP TABLE t".toList).valid = false :=
  c3_read_only_enforcement.1 "DROP TABLE t".toList (Or.inr (Or.inl (by decide)))

/-- Shared helper: masking a 32-bit value with the high-16-bit mask keeps
exactly the high half. -/
theorem mask_high (hi lo : Nat) (hlo : lo < 2 ^ 16) (hhi : hi < 2 ^ 16) :
    (2 ^ 16 * hi + lo) &&& (2 ^ 16 * 65535) = 2 ^ 16 * hi := by
  apply Nat.eq_of_testBit_eq
  intro j
  rw [Nat.testBit_and]
  rcases Nat.lt_or_ge j 16 with hj | hj
  · rw [Nat.testBit_mul_pow_two_add _ hlo, if_pos hj]
    rw [show (2 ^ 16 * 65535 : Nat) = 2 ^ 16 * 65535 + 0 by omega]
    rw [Nat.testBit_mul_pow_two_add _ (by norm_num), if_pos hj]
    rw [show (2 ^ 16 * hi : Nat) = 2 ^ 16 * hi + 0 by omega]
    rw [Nat.testBit_mul_pow_two_add _ (by norm_num), if_pos hj]
    simp
  · rw [Nat.testBit_mul_pow_two_add _ hlo, if_neg (by omega)]
    rw [show (2 ^ 16 * 65535 : Nat) = 2 ^ 16 * 65535 + 0 by omega]
    rw [Nat.testBit_mul_pow_two_add _ (by norm_num), if_neg (by omega)]
    rw [show (2 ^ 16 * hi : Nat) = 2 ^ 16 * hi + 0 by omega]
    rw [Nat.testBit_mul_pow_two_add _ (by norm_num), if_neg (by omega)]
    rcases Nat.lt_or_ge j 32 with hj2 | hj2
    · rw [show (65535 : Nat) = 2 ^ 16 - 1 by norm_num, Nat.testBit_two_pow_sub_one]
      rw [decide_eq_true (by omega : j - 16 < 16)]
      simp
    · rw [Nat.testBit_lt_two_pow (by calc hi < 2 ^ 16 := hhi
          _ ≤ 2 ^ (j - 16) := Nat.pow_le_pow_right (by norm_num) (by omega))]
      rfl

/-- Shared helper: the masked magic of an input starting `6F 61` is the
`oa` table key. -/
theorem oa_format_check (b2 b3 : Nat) (h2 : b2 < 256) (h3 : b3 < 256) :
    (((0x6F * 256 + 0x61) * 256 + b2) * 256 + b3) &&& 0xFFFF0000 = 0x6F610000 := by
  have p16 : (2 : Nat) ^ 16 = 65536 := by norm_num
  rw [show (0xFFFF0000 : Nat) = 2 ^ 16 * 65535 by rw [p16]]
  rw [show ((0x6F * 256 + 0x61) * 256 + b2) * 256 + b3 = 2 ^ 16 * 0x6F61 + (b2 * 256 + b3) by
    rw [p16]; omega]
  rw [mask_high 0x6F61 (b2 * 256 + b3) (by rw [p16]; omega) (by rw [p16]; norm_num)]
  rw [p16]

/-- C5: on any input of at least four bytes, `analyze_magic_number`
returns without raising; an input beginning `6F 61` reports the `oa`
format as recognized; and a magic whose masked high half matches no table
entry reports `format_recognized = false` instead of failing. -/
theorem c5_magic_number_recognition (b0 b1 b2 b3 : Nat) (tail : List Nat)
    (h0 : b0 < 256) (h1 : b1 < 256) (h2 : b2 < 256) (h3 : b3 < 256) :
    (∃ a, analyze_magic_number (b0 :: b1 :: b2 :: b3 :: tail) = Except.ok a) ∧
    (b0 = 0x6F → b1 = 0x61 →
      ∃ a, analyze_magic_number (b0 :: b1 :: b2 :: b3 :: tail) = Except.ok a ∧
        a.format_name = oaFormatName ∧ a.format_recognized = true) ∧
    (∀ a, analyze_magic_number (b0 :: b1 :: b2 :: b3 :: tail) = Except.ok a →
      known_formats.lookup ((((b0 * 256 + b1) * 256 + b2) * 256 + b3) &&& 0xFFFF0000) =
        Option.none →
      a.format_recognized = false) := by
  refine ⟨⟨_, rfl⟩, ?_, ?_⟩
  · intro e0 e1
    subst e0; subst e1
    have hr : analyze_magic_number (0x6F :: 0x61 :: b2 :: b3 :: tail) = Except.ok
        { magic_hex := "0x".toList ++ hexPad 8 (((0x6F * 256 + 0x61) * 256 + b2) * 256 + b3)
          format_recognized := (known_formats.lookup
            ((((0x6F * 256 + 0x61) * 256 + b2) * 256 + b3) &&& 0xFFFF0000)).isSome
          format_name := (known_formats.lookup
            ((((0x6F * 256 + 0x61) * 256 + b2) * 256 + b3) &&& 0xFFFF0000)).getD
              "Unknown format"
          version_bytes := "0x".toList ++ hexPad 4
            ((((0x6F * 256 + 0x61) * 256 + b2) * 256 + b3) &&& 0xFFFF) } := rfl
    refine ⟨_, hr, ?_, ?_⟩
    · show (known_formats.lookup
        ((((0x6F * 256 + 0x61) * 256 + b2) * 256 + b3) &&& 0xFFFF0000)).getD
          "Unknown format" = oaFormatName
      rw [oa_format_check b2 b3 h2 h3]
      rfl
    · show (known_formats.lookup
        ((((0x6F * 256 + 0x61) * 256 + b2) * 256 + b3) &&& 0xFFFF0000)).isSome = true
      rw [oa_format_check b2 b3 h2 h3]
      rfl
  · intro a ha hnone
    simp only [analyze_magic_number, Except.ok.injEq] at ha
    subst ha
    show (known_formats.lookup
      ((((b0 * 256 + b1) * 256 + b2) * 256 + b3) &&& 0xFFFF0000)).isSome = false
    rw [hnone]
    rfl

/-- C5 witness: the bytes `6F 61 00 01` are reported as the recognized
`oa` format. -/
theorem c5_witness :
    ∃ a, analyze_magic_number [0x6F, 0x61, 0x00, 0x01] = Except.ok a ∧
      a.format_name = oaFormatName ∧ a.format_recognized = true :=
  (c5_magic_number_recognition 0x6F 0x61 0x00 0x01 []
    (by norm_num) (by norm_num) (by norm_num) (by norm_num)).2.1 rfl rfl

/-- C7: for an existing regular file whose name ends in `-Data.db`,
`validate_sstable_path` reports `valid = true` with an empty `errors`
list whatever companion files are absent; the missing companions are
reported only through `missing_companions` (and the warnings list). -/
theorem c7_companions_warn_not_error (fs : FileSystem) (p : PyPath)
    (h1 : fs.pathExists p = true) (h2 : fs.isFile p = true)
    (h3 : strEndsWith p.name "-Data.db" = true) :
    (validate_sstable_path fs p).valid = true ∧
    (validate_sstable_path fs p).errors = [] ∧
    (validate_sstable_path fs p).missing_companions =
      some (((companion_files
          (String.mk (p.name.toList.take (p.name.toList.length - 8)))).filter
        (fun fp => !(fs.pathExists { dir := p.dir, name := fp.2 }))).map (fun fp => fp.1)) := by
  refine ⟨?_, ?_, ?_⟩ <;> simp [validate_sstable_path, h1, h2, h3]

/-- Filesystem snapshot used by the C7 witness: only the Data file itself
exists, every companion file is absent. -/
def fsWitness : FileSystem :=
  { pathExists := fun p => p.name == "na-1-big-Data.db"
    isFile := fun p => p.name == "na-1-big-Data.db"
    fileSize := fun _ => 2048 }

/-- Path used by the C7 witness. -/
def pathWitness : PyPath := { dir := "/data", name := "na-1-big-Data.db" }

/-- C7 witness: with every companion file absent, validation still
succeeds with no errors. -/
theorem c7_witness :
    fsWitness.pathExists pathWitness = true ∧
    (validate_sstable_path fsWitness pathWitness).valid = true ∧
    (validate_sstable_path fsWitness pathWitness).errors = [] :=
  ⟨rfl, (c7_companions_warn_not_error fsWitness pathWitness rfl rfl (by decide)).1,
    (c7_companions_warn_not_error fsWitness pathWitness rfl rfl (by decide)).2.1⟩

/-- Shared helper: flattening the chunk loop restores the accumulated
chunk followed by the remaining rows. -/
theorem queryChunksLoop_flatten {α : Type} (k : Nat) :
    ∀ (rows chunk : List α), (queryChunksLoop k chunk rows).flatten = chunk ++ rows := by
  intro rows
  induction rows with
  | nil =>
    intro chunk
    cases chunk <;> simp [queryChunksLoop]
  | cons r rest ih =>
    intro chunk
    simp only [queryChunksLoop]
    split
    · simp [ih]
    · simp [ih]

/-- C8: for every chunk size `k ≥ 1`, concatenating the chunks yielded by
`query_chunks` over a row sequence gives exactly the row sequence that
row-at-a-time streaming yields. -/
theorem c8_chunked_streaming_equivalence {α : Type} (k : Nat) (rows : List α)
    (hk : 1 ≤ k) :
    (query_chunks k rows).flatten = query_streaming rows := by
  rw [query_chunks, query_streaming, queryChunksLoop_flatten]
  rfl

/-- C8 witness: chunking `[1, 2, 3]` with `k = 2` and flattening restores
the streamed sequence. -/
theorem c8_witness :
    1 ≤ 2 ∧ (query_chunks 2 [1, 2, 3]).flatten = query_streaming [1, 2, 3] :=
  ⟨by decide, c8_chunked_streaming_equivalence 2 [1, 2, 3] (by decide)⟩

/-- Shared helper: shape invariant of the chunk loop — starting from a
partial chunk shorter than `k`, every emitted chunk is non-empty with at
most `k` rows, and every emitted chunk except the last has exactly `k`. -/
theorem queryChunksLoop_shape {α : Type} (k : Nat) (hk : 1 ≤ k) :
    ∀ (rows chunk : List α), chunk.length < k →
      (∀ c ∈ queryChunksLoop k chunk rows, c ≠ [] ∧ c.length ≤ k) ∧
      (∀ (i : Nat) (h : i < (queryChunksLoop k chunk rows).length),
        i + 1 < (queryChunksLoop k chunk rows).length →
        ((queryChunksLoop k chunk rows).get ⟨i, h⟩).length = k) := by
  intro rows
  induction rows with
  | nil =>
    intro chunk hlen
    constructor
    · intro c hc
      cases chunk with
      | nil => simp [queryChunksLoop] at hc
      | cons a as =>
        simp [queryChunksLoop] at hc
        subst hc
        exact ⟨by simp, Nat.le_of_lt hlen⟩
    · intro i h hsucc
      cases chunk with
      | nil => simp [queryChunksLoop] at h
      | cons a as => simp [queryChunksLoop] at hsucc
  | cons r rest ih =>
    intro chunk hlen
    by_cases hcond : k ≤ (chunk ++ [r]).length
    · have hloop : queryChunksLoop k chunk (r :: rest) =
          (chunk ++ [r]) :: queryChunksLoop k [] rest := by
        simp only [queryChunksLoop]
        rw [if_pos hcond]
      have hexact : (chunk ++ [r]).length = k := by
        simp only [List.length_append, List.length_cons, List.length_nil] at hcond ⊢
        omega
      rw [hloop]
      constructor
      · intro c hc
        rcases List.mem_cons.mp hc with hc | hc
        · subst hc
          exact ⟨by simp, Nat.le_of_eq hexact⟩
        · exact (ih [] (by simpa using hk)).1 c hc
      · intro i h hsucc
        cases i with
        | zero => simpa using hexact
        | succ j =>
          have hlen2 : j < (queryChunksLoop k [] rest).length := by
            simp only [List.length_cons] at h
            omega
          have hsucc2 : j + 1 < (queryChunksLoop k [] rest).length := by
            simp only [List.length_cons] at hsucc
            omega
          have := (ih [] (by simpa using hk)).2 j hlen2 hsucc2
          simpa using this
    · have hloop : queryChunksLoop k chunk (r :: rest) =
          queryChunksLoop k (chunk ++ [r]) rest := by
        simp only [queryChunksLoop]
        rw [if_neg hcond]
      have hlt : (chunk ++ [r]).length < k := by
        simp only [not_le] at hcond
        exact hcond
      rw [hloop]
      exact ih (chunk ++ [r]) hlt

/-- C10: for every chunk size `k ≥ 1`, every chunk yielded by
`query_chunks` is non-empty with at most `k` rows, and every chunk except
possibly the last has exactly `k` rows. -/
theorem c10_chunk_size_invariant {α : Type} (k : Nat) (rows : List α) (hk : 1 ≤ k) :
    (∀ c ∈ query_chunks k rows, c ≠ [] ∧ c.length ≤ k) ∧
    (∀ (i : Nat) (h : i < (query_chunks k rows).length),
      i + 1 < (query_chunks k rows).length →
      ((query_chunks k rows).get ⟨i, h⟩).length = k) := by
  rw [query_chunks]
  exact queryChunksLoop_shape k hk rows [] (by simpa using hk)

/-- C10 witness: with `k = 2` on three rows, every chunk is non-empty
with at most two rows. -/
theorem c10_witness :
    1 ≤ 2 ∧ (∀ c ∈ query_chunks 2 [1, 2, 3], c ≠ [] ∧ c.length ≤ 2) :=
  ⟨by decide, (c10_chunk_size_invariant 2 [1, 2, 3] (by decide)).1⟩

set_option maxRecDepth 4096 in
/-- Shared helper (checked per byte): the loop of `decode_vint` computes
the leading 1-bit count of a byte. -/
theorem vintExtraBytes_eq_fin : ∀ b : Fin 256, vintExtraBytes b.val = specLeadingOnes b.val := by
  decide

/-- Shared helper: `Nat`-level form of `vintExtraBytes_eq_fin`. -/
theorem vintExtraBytes_eq (b : Nat) (hb : b < 256) : vintExtraBytes b = specLeadingOnes b :=
  vintExtraBytes_eq_fin ⟨b, hb⟩

set_option maxRecDepth 4096 in
/-- Shared helper (checked per byte): the first-byte value bits computed
by `decode_vint` through masking equal the spec's `b mod 2 ^ (7 - extra)`
(and `0` when `extra ≥ 7`). -/
theorem vint_first_bits_fin : ∀ b : Fin 256,
    (if 0 < (if specLeadingOnes b.val < 7 then 7 - specLeadingOnes b.val else 0)
     then b.val &&& ((1 <<< (if specLeadingOnes b.val < 7 then 7 - specLeadingOnes b.val else 0)) - 1)
     else 0) = (if specLeadingOnes b.val < 7 then b.val % 2 ^ (7 - specLeadingOnes b.val) else 0) := by
  decide

/-- Shared helper: `Nat`-level form of `vint_first_bits_fin`. -/
theorem vint_first_bits (b : Nat) (hb : b < 256) :
    (if 0 < (if specLeadingOnes b < 7 then 7 - specLeadingOnes b else 0)
     then b &&& ((1 <<< (if specLeadingOnes b < 7 then 7 - specLeadingOnes b else 0)) - 1)
     else 0) = (if specLeadingOnes b < 7 then b % 2 ^ (7 - specLeadingOnes b) else 0) :=
  vint_first_bits_fin ⟨b, hb⟩

/-- Shared helper: on bytes below 256, shift-and-or accumulation agrees
with the arithmetic big-endian fold. -/
theorem vint_fold_eq : ∀ (bs : List Nat), (∀ b ∈ bs, b < 256) → ∀ v0 : Nat,
    bs.foldl (fun v b => (v <<< 8) ||| b) v0 = bs.foldl (fun acc b => acc * 256 + b) v0 := by
  intro bs
  induction bs with
  | nil => intro _ v0; rfl
  | cons b rest ih =>
    intro hb v0
    simp only [List.foldl_cons]
    have hb1 : b < 2 ^ 8 := by simpa using hb b (by simp)
    have hstep : (v0 <<< 8) ||| b = v0 * 256 + b := by
      rw [Nat.shiftLeft_eq, mul_comm v0 (2 ^ 8), ← Nat.mul_add_lt_is_or hb1 v0]
    rw [hstep]
    exact ih (fun x hx => hb x (by simp [hx])) (v0 * 256 + b)

/-- Shared helper: the big-endian fold with an arbitrary accumulator. -/
theorem be_foldl_acc : ∀ (bs : List Nat) (a : Nat),
    bs.foldl (fun acc b => acc * 256 + b) a = a * 256 ^ bs.length + specBigEndian bs := by
  intro bs
  induction bs with
  | nil => intro a; simp [specBigEndian]
  | cons b rest ih =>
    intro a
    have hbe : specBigEndian (b :: rest) = b * 256 ^ rest.length + specBigEndian rest := by
      show List.foldl _ 0 (b :: rest) = _
      rw [List.foldl_cons]
      have := ih (0 * 256 + b)
      simpa using this
    rw [List.foldl_cons, ih (a * 256 + b), hbe, List.length_cons]
    ring

/-- Shared helper: the XOR-based ZigZag step of `decode_vint` equals the
spec's `(m >> 1) XOR (-(m AND 1))`. -/
theorem zigzag_eq (v : Nat) :
    Int.xor ((v >>> 1 : Nat) : Int) (if v &&& 1 ≠ 0 then -1 else 0) = specZigZag v := by
  rw [specZigZag, Nat.and_one_is_mod]
  rcases Nat.mod_two_eq_zero_or_one v with h | h <;> rw [h] <;> norm_num

/-- C4: on a byte sequence whose length is one more than the leading
1-bit count of its first byte, `decode_vint` returns the ZigZag decoding
of the magnitude formed by the low `7 - extra_bytes` bits of the first
byte (none when `extra_bytes ≥ 7`) concatenated big-endian with the
remaining bytes; for first byte `0xFF` this is the ZigZag decoding of the
eight trailing bytes. -/
theorem c4_vint_decode (first : Nat) (rest : List Nat)
    (hf : first < 256) (hb : ∀ b ∈ rest, b < 256)
    (hlen : rest.length = specLeadingOnes first) :
    decode_vint (first :: rest) = Except.ok (specZigZag (specVIntMagnitude first rest)) ∧
    (first = 0xFF → decode_vint (first :: rest) =
      Except.ok (specZigZag (specBigEndian rest))) := by
  have hx : vintExtraBytes first = specLeadingOnes first := vintExtraBytes_eq first hf
  have hmain : decode_vint (first :: rest) =
      Except.ok (specZigZag (specVIntMagnitude first rest)) := by
    simp only [decode_vint]
    rw [hx]
    rw [if_neg (by simp [hlen])]
    congr 1
    rw [zigzag_eq]
    congr 1
    by_cases h0 : specLeadingOnes first = 0
    · have hrest : rest = [] := List.eq_nil_of_length_eq_zero (by rw [hlen, h0])
      subst hrest
      rw [if_pos h0, specVIntMagnitude, h0]
      simp only [List.length_nil, pow_zero, mul_one, specBigEndian, List.foldl_nil,
        Nat.add_zero]
      rw [if_pos (by omega : (0 : Nat) < 7)]
      rw [show (0x7F : Nat) = 2 ^ 7 - 1 by norm_num, Nat.and_pow_two_sub_one_eq_mod]
    · rw [if_neg h0]
      rw [vint_fold_eq rest hb, be_foldl_acc]
      rw [specVIntMagnitude]
      congr 1
      congr 1
      exact vint_first_bits first hf
  refine ⟨hmain, ?_⟩
  intro hff
  rw [hmain]
  subst hff
  have hs : specLeadingOnes 0xFF = 8 := by decide
  rw [specVIntMagnitude, hs]
  rw [if_neg (by omega)]
  simp

/-- C4 witness: the all-1s first byte `0xFF` with eight trailing bytes
decodes to the ZigZag decoding of the trailing bytes alone. -/
theorem c4_witness :
    ([1, 2, 3, 4, 5, 6, 7, 8] : List Nat).length = specLeadingOnes 0xFF ∧
    decode_vint [0xFF, 1, 2, 3, 4, 5, 6, 7, 8] =
      Except.ok (specZigZag (specBigEndian [1, 2, 3, 4, 5, 6, 7, 8])) :=
  ⟨by decide,
    (c4_vint_decode 0xFF [1, 2, 3, 4, 5, 6, 7, 8] (by norm_num) (by decide) (by decide)).2 rfl⟩

/-- C6: `decode_vint` fails exactly when the input is empty or its length
differs from one plus the leading 1-bit count of its first byte. -/
theorem c6_vint_malformation (bs : List Nat) (hb : ∀ b ∈ bs, b < 256) :
    (∃ e, decode_vint bs = Except.error e) ↔
      (bs = [] ∨ bs.length ≠ 1 + specLeadingOnes (bs.headD 0)) := by
  cases bs with
  | nil =>
    constructor
    · intro _
      exact Or.inl rfl
    · intro _
      exact ⟨"Empty VInt bytes", rfl⟩
  | cons first rest =>
    have hx : vintExtraBytes first = specLeadingOnes first :=
      vintExtraBytes_eq first (hb first (by simp))
    constructor
    · rintro ⟨e, he⟩
      by_cases hlc : (first :: rest).length ≠ vintExtraBytes first + 1
      · right
        rw [hx] at hlc
        simpa [Nat.add_comm] using hlc
      · exfalso
        simp only [decode_vint] at he
        rw [if_neg hlc] at he
        exact Except.noConfusion he
    · intro h
      rcases h with h | h
      · exact absurd h (List.cons_ne_nil first rest)
      · refine ⟨"VInt length mismatch", ?_⟩
        simp only [decode_vint]
        rw [hx]
        rw [if_pos (by simpa [Nat.add_comm] using h)]

/-- C6 witness: a lone `0x80` byte declares one extra byte but provides
none, and decoding fails. -/
theorem c6_witness :
    (∀ b ∈ ([0x80] : List Nat), b < 256) ∧ (∃ e, decode_vint [0x80] = Except.error e) :=
  ⟨by decide, (c6_vint_malformation [0x80] (by decide)).mpr (Or.inr (by decide))⟩
